import Mathlib

/-!
Shallow embedding of the speakace backend's game-session lifecycle and
performance-analytics code (src/backend/src): the GameSession model methods
(`calculatePerformance`, `endSession` in the schema file), the
POST /api/games/end-session/:sessionId route handler and its helpers
(`updateUserStats`, `getDefaultAnalysis` in routes/games.js), the User model
methods (`updateStats`, `checkAchievements` in models/User.js), and the
progress-analytics helpers (routes/progress.js).

JavaScript numbers are modelled as rationals (ℚ); `Math.round` is modelled by
`jsRound` (floor of x + 1/2, which agrees with JS round-half-up on all
rationals).  A JS value that may be `undefined` is modelled as `Option ℚ`, and
the idiom `x || 0` as `orZero`.  Game-specific sub-records carry exactly the
fields the route handler materialises (each defaulted with `|| 0`), which is
the only shape `calculatePerformance` ever reads on the end-session path.
Database reads/writes are modelled by explicit state passing; the external AI
provider pipeline, whose stages can throw, is modelled by an
`Except String AIAnalysis` outcome parameter to the route function.
-/

namespace Speakace

/-- JS `Math.round` on rationals: round half toward positive infinity. -/
def jsRound (q : ℚ) : ℤ := ⌊q + 1/2⌋

/-- JS `x || 0` applied to a possibly-undefined number. -/
def orZero (x : Option ℚ) : ℚ :=
  match x with
  | none => 0
  | some v => v

/-- JS `x || ''` applied to a possibly-undefined string. -/
def orEmpty (x : Option String) : String :=
  match x with
  | none => ""
  | some v => v

/-- The three game types admitted by the GameSession schema enum. -/
inductive GameType
  | rapidFire
  | conductor
  | tripleStep
deriving DecidableEq, Repr

/-- The `gameSpecificData.rapidFire` record as the end-session route materialises it. -/
structure RapidFireData where
  prompt : String
  responseTime : ℚ
  analogyQuality : ℚ
  totalPrompts : ℚ
  completedResponses : ℚ
deriving DecidableEq, Repr

/-- The `gameSpecificData.tripleStep` record as the end-session route materialises it. -/
structure TripleStepData where
  topic : String
  wordsAttempted : ℚ
  successfulIntegrations : ℚ
  averageTime : ℚ
  words : List String
deriving DecidableEq, Repr

/-- The `gameSpecificData.conductor` record as the end-session route materialises it. -/
structure ConductorData where
  topic : String
  energyLevel : ℚ
  consistency : ℚ
deriving DecidableEq, Repr

/-- The `gameSpecificData` blob: each per-game sub-record may be absent. -/
structure GameSpecificData where
  rapidFire : Option RapidFireData
  conductor : Option ConductorData
  tripleStep : Option TripleStepData
deriving DecidableEq, Repr

/-- The `performance` sub-document of a GameSession.  `score` is an
`Option ℚ` because `calculatePerformance` branches on
`this.performance.score !== undefined`. -/
structure Performance where
  score : Option ℚ
  accuracy : ℚ
  speed : ℚ
  energyConsistency : ℚ
  wordIntegration : ℚ
  fluency : ℚ
  confidence : ℚ
  totalPrompts : ℚ
  completedPrompts : ℚ
deriving DecidableEq, Repr

/-- The `sessionData` sub-document (times as epoch milliseconds). -/
structure SessionData where
  startTime : ℤ
  endTime : Option ℤ
  duration : Option ℚ
deriving DecidableEq, Repr

/-- One AI feedback entry (`type`, `message`). -/
structure FeedbackEntry where
  kind : String
  message : String
deriving DecidableEq, Repr

/-- The `aiAnalysis` sub-document attached to a completed session. -/
structure AIAnalysis where
  speechClarity : ℚ
  energyLevel : ℚ
  coherence : ℚ
  confidence : ℚ
  fluency : ℚ
  overallRating : ℚ
  strengths : List String
  areasForImprovement : List String
  feedback : List FeedbackEntry
deriving DecidableEq, Repr

/-- A GameSession document (the fields the lifecycle code reads/writes). -/
structure Session where
  gameType : GameType
  sessionData : SessionData
  performance : Performance
  gameSpecificData : GameSpecificData
  aiAnalysis : Option AIAnalysis
  isCompleted : Bool
deriving DecidableEq, Repr

/-- The sessionDuration virtual of the GameSession schema: rounded seconds between
endTime and startTime, 0 when endTime is unset. -/
def Session.sessionDuration (s : Session) : ℚ :=
  match s.sessionData.endTime with
  | some e => (jsRound (((e : ℚ) - (s.sessionData.startTime : ℚ)) / 1000) : ℚ)
  | none => 0

/-- Method `calculatePerformance` of the GameSession schema: early-returns when
`performance.score` is already defined; otherwise derives the normalized
metrics from the game-specific sub-record, then applies the `|| 0` defaults
(on rationals only the possibly-undefined `score` is affected). -/
def Session.calculatePerformance (s : Session) : Session :=
  if s.performance.score.isSome then s
  else
    let p :=
      match s.gameType with
      | .rapidFire =>
        match s.gameSpecificData.rapidFire with
        | some rf =>
          let acc : ℚ :=
            if rf.totalPrompts > 0 then
              (jsRound (rf.completedResponses / rf.totalPrompts * 100) : ℚ)
            else 0
          { s.performance with
              totalPrompts := rf.totalPrompts
              completedPrompts := rf.completedResponses
              accuracy := acc
              speed := rf.responseTime
              score := some acc }
        | none => s.performance
      | .conductor =>
        match s.gameSpecificData.conductor with
        | some c =>
          { s.performance with
              energyConsistency := c.consistency
              accuracy := c.consistency
              score := some c.consistency }
        | none => s.performance
      | .tripleStep =>
        match s.gameSpecificData.tripleStep with
        | some ts =>
          let acc : ℚ :=
            if ts.wordsAttempted > 0 then
              (jsRound (ts.successfulIntegrations / ts.wordsAttempted * 100) : ℚ)
            else 0
          { s.performance with
              accuracy := acc
              wordIntegration := acc
              speed := ts.averageTime
              score := some acc }
        | none => s.performance
    { s with performance := { p with score := some (orZero p.score) } }

/-- Method `endSession` of the GameSession schema: stamps endTime (the current time
in epoch milliseconds), derives duration from the virtual, marks the session
completed and runs `calculatePerformance`. -/
def Session.endSession (s : Session) (now : ℤ) : Session :=
  let s1 := { s with sessionData := { s.sessionData with endTime := some now } }
  let s2 := { s1 with sessionData := { s1.sessionData with duration := some s1.sessionDuration } }
  Session.calculatePerformance { s2 with isCompleted := true }

/-- The `stats.bestScores` map of the User schema (three fixed keys). -/
structure BestScores where
  rapidFire : ℚ
  conductor : ℚ
  tripleStep : ℚ
deriving DecidableEq, Repr

/-- Lookup `bestScores[gameTypeKey]`. -/
def BestScores.get (b : BestScores) : GameType → ℚ
  | .rapidFire => b.rapidFire
  | .conductor => b.conductor
  | .tripleStep => b.tripleStep

/-- Update `bestScores[gameTypeKey]`. -/
def BestScores.set (b : BestScores) : GameType → ℚ → BestScores
  | .rapidFire, v => { b with rapidFire := v }
  | .conductor, v => { b with conductor := v }
  | .tripleStep, v => { b with tripleStep := v }

/-- The `stats.streaks` sub-document. -/
structure Streaks where
  current : ℚ
  longest : ℚ
deriving DecidableEq, Repr

/-- The `stats` sub-document of the User schema. -/
structure UserStats where
  totalGamesPlayed : ℚ
  totalTimeSpent : ℚ
  averageScore : ℚ
  bestScores : BestScores
  streaks : Streaks
  averageConfidence : ℚ
deriving DecidableEq, Repr

/-- The achievement type enum of the User schema. -/
inductive AchievementType
  | first_game
  | streak_5
  | streak_10
  | perfect_score
  | speed_demon
  | energy_master
  | integration_expert
deriving DecidableEq, Repr

/-- One entry of a user's `achievements` array. -/
structure Achievement where
  kind : AchievementType
  description : String
deriving DecidableEq, Repr

/-- A User document (the fields the stats/achievement code reads/writes). -/
structure User where
  stats : UserStats
  achievements : List Achievement
deriving DecidableEq, Repr

/-- Truthiness of `this.achievements.find(a => a.type === t)`. -/
def User.hasAchievement (u : User) (t : AchievementType) : Bool :=
  u.achievements.any (fun a => a.kind == t)

/-- Method `updateStats(gameType, score, duration)` of the User schema: bumps the
counters, raises the per-game best score when the new score exceeds it,
recomputes `averageScore` as the mean of the three best scores, and blends
`averageConfidence` with `score/100`.  (In the source the best-score slot is
first defaulted to 0 when falsy; on rationals that only affects the value 0
and is the identity, and the three schema keys always exist.) -/
def User.updateStats (u : User) (gameType : GameType) (score duration : ℚ) : User :=
  let st := u.stats
  let st := { st with
    totalGamesPlayed := st.totalGamesPlayed + 1
    totalTimeSpent := st.totalTimeSpent + duration }
  let oldBest := st.bestScores.get gameType
  let newBest := if score > oldBest then score else oldBest
  let bs := st.bestScores.set gameType newBest
  let totalScore := bs.rapidFire + bs.conductor + bs.tripleStep
  let st := { st with
    bestScores := bs
    averageScore := totalScore / 3
    averageConfidence := (st.averageConfidence + score / 100) / 2 }
  { u with stats := st }

/-- Method `checkAchievements` of the User schema: collects the newly unlocked
achievements (first_game when `totalGamesPlayed === 1`, streak_5 / streak_10
when `streaks.current` is at least 5 / 10, each only if its type is not yet
present) and appends them to the user's list.  Returns the pair
(newAchievements, updated user). -/
def User.checkAchievements (u : User) : List Achievement × User :=
  let n1 : List Achievement :=
    if u.stats.totalGamesPlayed = 1 ∧ u.hasAchievement .first_game = false then
      [{ kind := .first_game, description := "Played your first game!" }]
    else []
  let n2 : List Achievement :=
    if u.stats.streaks.current ≥ 5 ∧ u.hasAchievement .streak_5 = false then
      [{ kind := .streak_5, description := "Maintained a 5-day streak!" }]
    else []
  let n3 : List Achievement :=
    if u.stats.streaks.current ≥ 10 ∧ u.hasAchievement .streak_10 = false then
      [{ kind := .streak_10, description := "Maintained a 10-day streak!" }]
    else []
  let news := n1 ++ n2 ++ n3
  (news, { u with achievements := u.achievements ++ news })

/-- Helper `getDefaultAnalysis()` from routes/games.js: the fixed fallback analysis
attached when any AI stage fails. -/
def getDefaultAnalysis : AIAnalysis :=
  { speechClarity := 75
    energyLevel := 75
    coherence := 75
    confidence := 75
    fluency := 75
    overallRating := 75
    strengths := ["Good effort", "Game completion"]
    areasForImprovement := ["Continue practicing", "Focus on improvement areas"]
    feedback :=
      [ { kind := "positive", message := "Good effort in completing the exercise" }
      , { kind := "suggestion", message := "Continue practicing to improve your skills" } ] }

/-- The client-submitted `performance` payload of an end-session request:
every field may be absent. -/
structure PerformancePayload where
  score : Option ℚ
  accuracy : Option ℚ
  speed : Option ℚ
  fluency : Option ℚ
  confidence : Option ℚ
deriving DecidableEq, Repr

/-- Client-submitted `gameSpecificData.rapidFire`. -/
structure RapidFirePayload where
  prompt : Option String
  responseTime : Option ℚ
  analogyQuality : Option ℚ
  totalPrompts : Option ℚ
  completedResponses : Option ℚ
deriving DecidableEq, Repr

/-- Client-submitted `gameSpecificData.tripleStep`. -/
structure TripleStepPayload where
  topic : Option String
  wordsAttempted : Option ℚ
  successfulIntegrations : Option ℚ
  averageTime : Option ℚ
  words : Option (List String)
deriving DecidableEq, Repr

/-- Client-submitted `gameSpecificData.conductor`. -/
structure ConductorPayload where
  topic : Option String
  energyLevel : Option ℚ
  consistency : Option ℚ
deriving DecidableEq, Repr

/-- Client-submitted `gameSpecificData` blob. -/
structure GameDataPayload where
  rapidFire : Option RapidFirePayload
  conductor : Option ConductorPayload
  tripleStep : Option TripleStepPayload
deriving DecidableEq, Repr

/-- The route's `gameSession.performance = { score: performance.score || 0,
... }` assignment: the five submitted fields are defaulted with `|| 0`, and
the replacement of the whole sub-document leaves the remaining schema fields
at their default 0. -/
def performanceFromPayload (pl : PerformancePayload) : Performance :=
  { score := some (orZero pl.score)
    accuracy := orZero pl.accuracy
    speed := orZero pl.speed
    fluency := orZero pl.fluency
    confidence := orZero pl.confidence
    energyConsistency := 0
    wordIntegration := 0
    totalPrompts := 0
    completedPrompts := 0 }

/-- The route's `switch (gameSession.gameType)` that normalizes the submitted
game-specific data (each field defaulted with `|| 0` / `|| ''` / `|| []`) and
stores it on the matching sub-record, when a payload for that game type is
present. -/
def applyGameData (s : Session) (gd : Option GameDataPayload) : Session :=
  match gd with
  | none => s
  | some g =>
    match s.gameType with
    | .rapidFire =>
      match g.rapidFire with
      | some rf =>
        { s with gameSpecificData := { s.gameSpecificData with rapidFire := some (
            { prompt := orEmpty rf.prompt
              responseTime := orZero rf.responseTime
              analogyQuality := orZero rf.analogyQuality
              totalPrompts := orZero rf.totalPrompts
              completedResponses := orZero rf.completedResponses }) } }
      | none => s
    | .tripleStep =>
      match g.tripleStep with
      | some ts =>
        { s with gameSpecificData := { s.gameSpecificData with tripleStep := some (
            { topic := orEmpty ts.topic
              wordsAttempted := orZero ts.wordsAttempted
              successfulIntegrations := orZero ts.successfulIntegrations
              averageTime := orZero ts.averageTime
              words := ts.words.getD [] }) } }
      | none => s
    | .conductor =>
      match g.conductor with
      | some c =>
        { s with gameSpecificData := { s.gameSpecificData with conductor := some (
            { topic := orEmpty c.topic
              energyLevel := orZero c.energyLevel
              consistency := orZero c.consistency }) } }
      | none => s

/-- Helper `updateUserStats(userId, gameSession)` from routes/games.js: reads the
session's score (`|| 0`), derives the duration (rounded seconds between start
and end when both are set, else the stored duration when truthy, else 0),
applies `User.updateStats` and then `User.checkAchievements`. -/
def updateUserStats (u : User) (s : Session) : User :=
  let score := orZero s.performance.score
  let duration : ℚ :=
    match s.sessionData.endTime with
    | some e => (jsRound (((e : ℚ) - (s.sessionData.startTime : ℚ)) / 1000) : ℚ)
    | none => orZero s.sessionData.duration
  let u1 := u.updateStats s.gameType score duration
  (u1.checkAchievements).2

/-- Outcome of the end-session route, as seen by the caller. -/
inductive RouteResult
  | notFound
  | alreadyCompleted
  | success (session : Session) (aiAnalysis : AIAnalysis)
deriving DecidableEq, Repr

/-- The persistent state the end-session route touches: the session looked up
by (sessionId, userId) — `none` when no such session exists — the owning
user, and a counter of `updateUserStats` invocations (used to state the
exactly-once accounting property). -/
structure EndState where
  session : Option Session
  user : User
  statsUpdates : ℕ
deriving DecidableEq, Repr

/-- The POST /api/games/end-session/:sessionId handler: 404 when the session
is missing, 400 ("Session already completed") when `isCompleted` is already
true — both before any write — otherwise it assigns the submitted
performance, normalizes the game-specific data, runs `endSession`, attaches
the AI analysis (`getDefaultAnalysis` when the AI pipeline threw, modelled by
the `aiResult` parameter), updates the user stats once, and responds with the
completed session. -/
def endSessionRoute (st : EndState) (pl : PerformancePayload)
    (gd : Option GameDataPayload) (aiResult : Except String AIAnalysis)
    (now : ℤ) : RouteResult × EndState :=
  match st.session with
  | none => (.notFound, st)
  | some gs =>
    if gs.isCompleted then (.alreadyCompleted, st)
    else
      let gs1 := { gs with performance := performanceFromPayload pl }
      let gs2 := applyGameData gs1 gd
      let gs3 := gs2.endSession now
      let ai :=
        match aiResult with
        | .ok a => a
        | .error _ => getDefaultAnalysis
      let gs4 := { gs3 with aiAnalysis := some ai }
      let u1 := updateUserStats st.user gs4
      (.success gs4 ai,
        { session := some gs4, user := u1, statsUpdates := st.statsUpdates + 1 })

/-- A session's score as the analytics code reads it:
`s.performance.score || 0`. -/
def sessionScore (s : Session) : ℚ := orZero s.performance.score

/-- A session's duration as the analytics code reads it:
`s.sessionData.duration || 0`. -/
def sessionTime (s : Session) : ℚ := orZero s.sessionData.duration

/-- Average as the analytics code computes it: `list.reduce((sum, x) => sum + x, 0) / list.length`. -/
def listAvg (l : List ℚ) : ℚ := l.sum / l.length

/-- JS `Math.max(...list)` under a nonemptiness guard (0 for the empty list,
which every caller rules out with a `length > 0` check). -/
def listMax : List ℚ → ℚ
  | [] => 0
  | x :: xs => xs.foldl max x

/-- The `improvement` computation of GET /api/progress/overview
(routes/progress.js): 0 unless at least 4 completed sessions are in range;
otherwise the chronologically sorted sessions are split at `floor(n/2)` and
the result is `Math.round(((secondHalfAvg - firstHalfAvg) / firstHalfAvg) *
100)`. -/
def overviewImprovement (sessions : List Session) : ℤ :=
  if sessions.length ≥ 4 then
    let midPoint := sessions.length / 2
    let firstHalf := sessions.take midPoint
    let secondHalf := sessions.drop midPoint
    let firstHalfAvg := listAvg (firstHalf.map sessionScore)
    let secondHalfAvg := listAvg (secondHalf.map sessionScore)
    jsRound ((secondHalfAvg - firstHalfAvg) / firstHalfAvg * 100)
  else 0

/-- The result record of `calculatePeriodMetrics(sessions)` from routes/progress.js. -/
structure PeriodMetrics where
  sessions : ℕ
  averageScore : ℚ
  bestScore : ℚ
  totalTime : ℚ
deriving DecidableEq, Repr

/-- Helper `calculatePeriodMetrics(sessions)` from routes/progress.js. -/
def calculatePeriodMetrics (l : List Session) : PeriodMetrics :=
  { sessions := l.length
    averageScore :=
      if l.length > 0 then (jsRound (listAvg (l.map sessionScore)) : ℚ) else 0
    bestScore := if l.length > 0 then listMax (l.map sessionScore) else 0
    totalTime := (l.map sessionTime).sum }

/-- One entry of the compare route's `changes` object. -/
structure MetricChange where
  period1 : ℚ
  period2 : ℚ
  change : ℚ
  percentageChange : ℚ
deriving DecidableEq, Repr

/-- The compare route's per-metric pattern: `change = p1 - p2` and
`percentageChange = p2 > 0 ? Math.round(((p1 - p2) / p2) * 100) : 0`. -/
def metricChange (p1 p2 : ℚ) : MetricChange :=
  { period1 := p1
    period2 := p2
    change := p1 - p2
    percentageChange :=
      if p2 > 0 then (jsRound ((p1 - p2) / p2 * 100) : ℚ) else 0 }

/-- The `changes` object of GET /api/progress/compare. -/
structure CompareChanges where
  sessions : MetricChange
  averageScore : MetricChange
  totalTime : MetricChange
deriving DecidableEq, Repr

/-- The GET /api/progress/compare computation of `changes` over the two
period session sets. -/
def compareChanges (period1Sessions period2Sessions : List Session) : CompareChanges :=
  let m1 := calculatePeriodMetrics period1Sessions
  let m2 := calculatePeriodMetrics period2Sessions
  { sessions := metricChange (m1.sessions : ℚ) (m2.sessions : ℚ)
    averageScore := metricChange m1.averageScore m2.averageScore
    totalTime := metricChange m1.totalTime m2.totalTime }

/-- Each achievement type appears at most once in the list. -/
def typesAtMostOnce (l : List Achievement) : Prop :=
  ∀ t : AchievementType, l.countP (fun a => a.kind == t) ≤ 1

/-- The AI analysis value the route ends up attaching: the pipeline's result
on success, `getDefaultAnalysis` when some stage threw. -/
def aiOutcome (ai : Except String AIAnalysis) : AIAnalysis :=
  match ai with
  | .ok a => a
  | .error _ => getDefaultAnalysis

/-- The completed session exactly as the end-session route persists it on the
success path. -/
def routeFinalSession (gs : Session) (pl : PerformancePayload)
    (gd : Option GameDataPayload) (ai : Except String AIAnalysis)
    (now : ℤ) : Session :=
  { (applyGameData { gs with performance := performanceFromPayload pl } gd).endSession now
      with aiAnalysis := some (aiOutcome ai) }

/-- A concrete open conductor session started at epoch 0. -/
def sampleOpenSession : Session :=
  { gameType := .conductor
    sessionData := { startTime := 0, endTime := none, duration := none }
    performance :=
      { score := none, accuracy := 0, speed := 0, energyConsistency := 0
        wordIntegration := 0, fluency := 0, confidence := 0
        totalPrompts := 0, completedPrompts := 0 }
    gameSpecificData := { rapidFire := none, conductor := none, tripleStep := none }
    aiAnalysis := none
    isCompleted := false }

/-- A concrete user with no games played yet. -/
def freshUser : User :=
  { stats :=
      { totalGamesPlayed := 0
        totalTimeSpent := 0
        averageScore := 0
        bestScores := { rapidFire := 0, conductor := 0, tripleStep := 0 }
        streaks := { current := 0, longest := 0 }
        averageConfidence := 0 }
    achievements := [] }

/-- A concrete end-session state: the open session owned by the fresh user. -/
def sampleEndState : EndState :=
  { session := some sampleOpenSession, user := freshUser, statsUpdates := 0 }

/-- A concrete in-range performance payload. -/
def samplePayload : PerformancePayload :=
  { score := some 80, accuracy := some 90, speed := some 2
    fluency := none, confidence := none }

/-- A concrete out-of-range performance payload (score 150). -/
def overPayload : PerformancePayload :=
  { score := some 150, accuracy := some 30, speed := none
    fluency := none, confidence := none }

/-- A minimal completed session with the given score, as analytics input. -/
def scoredSession (q : ℚ) : Session :=
  { gameType := .rapidFire
    sessionData := { startTime := 0, endTime := some 60000, duration := some 60 }
    performance :=
      { score := some q, accuracy := q, speed := 0, energyConsistency := 0
        wordIntegration := 0, fluency := 0, confidence := 0
        totalPrompts := 0, completedPrompts := 0 }
    gameSpecificData := { rapidFire := none, conductor := none, tripleStep := none }
    aiAnalysis := none
    isCompleted := true }

/-- A concrete user who just completed the first game with a 5-day streak. -/
def sampleUser : User :=
  { stats :=
      { totalGamesPlayed := 1
        totalTimeSpent := 60
        averageScore := 0
        bestScores := { rapidFire := 0, conductor := 0, tripleStep := 0 }
        streaks := { current := 5, longest := 5 }
        averageConfidence := 0 }
    achievements := [] }

/-- A concrete open rapidFire session with 10 prompts and 7 completed
responses and no precomputed score. -/
def sampleRapidFireSession : Session :=
  { gameType := .rapidFire
    sessionData := { startTime := 0, endTime := none, duration := none }
    performance :=
      { score := none, accuracy := 0, speed := 0, energyConsistency := 0
        wordIntegration := 0, fluency := 0, confidence := 0
        totalPrompts := 0, completedPrompts := 0 }
    gameSpecificData :=
      { rapidFire := some
          { prompt := "pets", responseTime := 3, analogyQuality := 0
            totalPrompts := 10, completedResponses := 7 }
        conductor := none
        tripleStep := none }
    aiAnalysis := none
    isCompleted := false }

/-! ### Helper lemmas -/

lemma not_has_countP (l : List Achievement) (k : AchievementType)
    (h : l.any (fun a => a.kind == k) = false) :
    l.countP (fun a => a.kind == k) = 0 := by
  rw [List.countP_eq_zero]
  intro a ha hk
  have hany : (l.any fun a => a.kind == k) = true :=
    List.any_eq_true.mpr ⟨a, ha, hk⟩
  rw [h] at hany
  exact Bool.noConfusion hany

lemma countP_le_one_of_pairwise (news : List Achievement) (t : AchievementType)
    (h : news.Pairwise (fun a b => a.kind ≠ b.kind)) :
    news.countP (fun a => a.kind == t) ≤ 1 := by
  induction news with
  | nil => simp
  | cons a as ih =>
    rcases List.pairwise_cons.mp h with ⟨ha, has⟩
    rw [List.countP_cons]
    by_cases hk : (a.kind == t) = true
    · have hz : as.countP (fun b => b.kind == t) = 0 := by
        rw [List.countP_eq_zero]
        intro b hb hbk
        exact ha b hb (by rw [beq_iff_eq] at hk hbk; rw [hbk, hk])
      simp [hz, hk]
    · simp only [hk, if_false]
      simpa using ih has

lemma typesAtMostOnce_append (l news : List Achievement)
    (hl : typesAtMostOnce l)
    (hpair : news.Pairwise (fun a b => a.kind ≠ b.kind))
    (hfresh : ∀ a ∈ news, l.any (fun b => b.kind == a.kind) = false) :
    typesAtMostOnce (l ++ news) := by
  intro t
  rw [List.countP_append]
  by_cases hmem : ∃ a ∈ news, a.kind = t
  · obtain ⟨a, ha, rfl⟩ := hmem
    have hz := not_has_countP l a.kind (hfresh a ha)
    have hn := countP_le_one_of_pairwise news a.kind hpair
    omega
  · have hz : news.countP (fun a => a.kind == t) = 0 := by
      rw [List.countP_eq_zero]
      intro a ha hk
      exact hmem ⟨a, ha, by rwa [beq_iff_eq] at hk⟩
    rw [hz]
    simpa using hl t

lemma ifGt_eq_max (a b : ℚ) : (if b > a then b else a) = max a b := by
  rcases lt_or_le a b with h | h
  · simp [h, max_eq_right h.le]
  · simp [not_lt.mpr h, max_eq_left h]

lemma get_set_self (b : BestScores) (g : GameType) (v : ℚ) :
    (b.set g v).get g = v := by
  cases g <;> rfl

lemma get_set_other (b : BestScores) (g g' : GameType) (v : ℚ) (h : g' ≠ g) :
    (b.set g v).get g' = b.get g' := by
  cases g <;> cases g' <;> simp_all [BestScores.set, BestScores.get]

/-- Lemma: `calculatePerformance` is the identity whenever `performance.score` is
already defined (its early return). -/
lemma calculatePerformance_of_some (s : Session)
    (h : s.performance.score.isSome = true) :
    s.calculatePerformance = s := by
  unfold Session.calculatePerformance
  simp [h]

lemma applyGameData_performance (s : Session) (gd : Option GameDataPayload) :
    (applyGameData s gd).performance = s.performance := by
  unfold applyGameData
  split
  · rfl
  · split <;> split <;> rfl

lemma applyGameData_sessionData (s : Session) (gd : Option GameDataPayload) :
    (applyGameData s gd).sessionData = s.sessionData := by
  unfold applyGameData
  split
  · rfl
  · split <;> split <;> rfl

lemma applyGameData_isCompleted (s : Session) (gd : Option GameDataPayload) :
    (applyGameData s gd).isCompleted = s.isCompleted := by
  unfold applyGameData
  split
  · rfl
  · split <;> split <;> rfl

/-- Lemma: `endSession` on a session whose score is already set: stamps end time,
duration and the completed flag, and leaves everything else unchanged. -/
lemma endSession_of_some (s : Session) (now : ℤ)
    (h : s.performance.score.isSome = true) :
    s.endSession now =
      { s with
          sessionData :=
            { s.sessionData with
                endTime := some now
                duration :=
                  some ((jsRound (((now : ℚ) - (s.sessionData.startTime : ℚ)) / 1000) : ℚ)) }
          isCompleted := true } := by
  unfold Session.endSession
  rw [calculatePerformance_of_some _ (by simpa using h)]
  rfl

lemma routeFinalSession_performance (gs : Session) (pl : PerformancePayload)
    (gd : Option GameDataPayload) (ai : Except String AIAnalysis) (now : ℤ) :
    (routeFinalSession gs pl gd ai now).performance = performanceFromPayload pl := by
  unfold routeFinalSession
  rw [endSession_of_some _ now (by rw [applyGameData_performance]; rfl)]
  exact applyGameData_performance _ gd

lemma routeFinalSession_isCompleted (gs : Session) (pl : PerformancePayload)
    (gd : Option GameDataPayload) (ai : Except String AIAnalysis) (now : ℤ) :
    (routeFinalSession gs pl gd ai now).isCompleted = true := by
  unfold routeFinalSession
  rw [endSession_of_some _ now (by rw [applyGameData_performance]; rfl)]

lemma routeFinalSession_aiAnalysis (gs : Session) (pl : PerformancePayload)
    (gd : Option GameDataPayload) (ai : Except String AIAnalysis) (now : ℤ) :
    (routeFinalSession gs pl gd ai now).aiAnalysis = some (aiOutcome ai) := rfl

/-- Unfolding of the route on an open session. -/
lemma endSessionRoute_open (st : EndState) (gs : Session) (pl : PerformancePayload)
    (gd : Option GameDataPayload) (ai : Except String AIAnalysis) (now : ℤ)
    (hs : st.session = some gs) (hopen : gs.isCompleted = false) :
    endSessionRoute st pl gd ai now =
      (RouteResult.success (routeFinalSession gs pl gd ai now) (aiOutcome ai),
       { session := some (routeFinalSession gs pl gd ai now)
         user := updateUserStats st.user (routeFinalSession gs pl gd ai now)
         statsUpdates := st.statsUpdates + 1 }) := by
  unfold endSessionRoute routeFinalSession aiOutcome
  rw [hs]
  simp [hopen]

/-- The route rejects a completed session without touching any state. -/
lemma endSessionRoute_completed (st : EndState) (gs : Session)
    (pl : PerformancePayload) (gd : Option GameDataPayload)
    (ai : Except String AIAnalysis) (now : ℤ)
    (hs : st.session = some gs) (hc : gs.isCompleted = true) :
    endSessionRoute st pl gd ai now = (RouteResult.alreadyCompleted, st) := by
  unfold endSessionRoute
  rw [hs]
  simp [hc]

/-! ### Claim theorems -/

/-- C4: one stats update increments `totalGamesPlayed` by 1, adds the
duration to `totalTimeSpent`, sets the game type's best score to the maximum
of its previous value and the new score, recomputes `averageScore` as the
mean of the three per-game-type best scores, and blends `averageConfidence`
as `(previous + score/100) / 2`. -/
theorem stats_update_spec (u : User) (g : GameType) (score duration : ℚ) :
    ((u.updateStats g score duration).stats.totalGamesPlayed =
        u.stats.totalGamesPlayed + 1) ∧
    ((u.updateStats g score duration).stats.totalTimeSpent =
        u.stats.totalTimeSpent + duration) ∧
    ((u.updateStats g score duration).stats.bestScores.get g =
        max (u.stats.bestScores.get g) score) ∧
    ((u.updateStats g score duration).stats.averageScore =
        ((u.updateStats g score duration).stats.bestScores.rapidFire +
         (u.updateStats g score duration).stats.bestScores.conductor +
         (u.updateStats g score duration).stats.bestScores.tripleStep) / 3) ∧
    ((u.updateStats g score duration).stats.averageConfidence =
        (u.stats.averageConfidence + score / 100) / 2) := by
  refine ⟨rfl, rfl, ?_, rfl, rfl⟩
  rw [show (u.updateStats g score duration).stats.bestScores =
        u.stats.bestScores.set g
          (if score > u.stats.bestScores.get g then score
           else u.stats.bestScores.get g) from rfl]
  rw [get_set_self, ifGt_eq_max]

/-- C6: a stats update never decreases any best score, and the updated game
type's best score becomes exactly `max(old value, score)`. -/
theorem best_scores_monotone (u : User) (g g' : GameType) (score duration : ℚ) :
    (u.stats.bestScores.get g' ≤
        (u.updateStats g score duration).stats.bestScores.get g') ∧
    ((u.updateStats g score duration).stats.bestScores.get g =
        max (u.stats.bestScores.get g) score) := by
  have hset : (u.updateStats g score duration).stats.bestScores =
      u.stats.bestScores.set g
        (if score > u.stats.bestScores.get g then score
         else u.stats.bestScores.get g) := rfl
  constructor
  · rw [hset]
    by_cases hgg : g' = g
    · subst hgg
      rw [get_set_self, ifGt_eq_max]
      exact le_max_left _ _
    · rw [get_set_other _ _ _ _ hgg]
  · rw [hset, get_set_self, ifGt_eq_max]

/-- C7: if each achievement type appears at most once before a
`checkAchievements` call, the same holds afterwards; no returned achievement
has a type already present; and first_game / streak_5 / streak_10 are
unlocked exactly when `totalGamesPlayed` is 1 / `streaks.current` reaches 5 /
reaches 10 and the type is not yet present. -/
theorem achievements_at_most_once (u : User) (h : typesAtMostOnce u.achievements) :
    typesAtMostOnce (u.checkAchievements).2.achievements ∧
    (∀ a ∈ (u.checkAchievements).1, u.hasAchievement a.kind = false) ∧
    ((∃ a ∈ (u.checkAchievements).1, a.kind = AchievementType.first_game) ↔
      (u.stats.totalGamesPlayed = 1 ∧ u.hasAchievement .first_game = false)) ∧
    ((∃ a ∈ (u.checkAchievements).1, a.kind = AchievementType.streak_5) ↔
      (5 ≤ u.stats.streaks.current ∧ u.hasAchievement .streak_5 = false)) ∧
    ((∃ a ∈ (u.checkAchievements).1, a.kind = AchievementType.streak_10) ↔
      (10 ≤ u.stats.streaks.current ∧ u.hasAchievement .streak_10 = false)) := by
  unfold User.checkAchievements
  split_ifs with h1 h2 h3 <;>
    refine ⟨typesAtMostOnce_append _ _ h ?_ ?_, ?_, ?_, ?_, ?_⟩ <;>
    simp_all [User.hasAchievement, List.pairwise_cons, ge_iff_le]

/-- Witness for C7: on `sampleUser` (first game, 5-day streak, empty
achievement list) the hypotheses hold, the at-most-once property is preserved
and first_game is among the newly unlocked achievements. -/
theorem achievements_at_most_once_witness :
    typesAtMostOnce sampleUser.achievements ∧
    typesAtMostOnce (sampleUser.checkAchievements).2.achievements ∧
    ((sampleUser.checkAchievements).1.map Achievement.kind =
      [AchievementType.first_game, AchievementType.streak_5]) := by
  have h : typesAtMostOnce sampleUser.achievements := by
    intro t
    simp [sampleUser]
  refine ⟨h, (achievements_at_most_once sampleUser h).1, ?_⟩
  simp [sampleUser, User.checkAchievements, User.hasAchievement]
  norm_num

/-- C2: when no score is preset, `calculatePerformance` computes for
rapidFire `accuracy = round(completedResponses/totalPrompts*100)` (0 when
`totalPrompts = 0`), `score = accuracy`, `speed = responseTime`, and for
tripleStep `accuracy = round(successfulIntegrations/wordsAttempted*100)` (0
when `wordsAttempted = 0`), `wordIntegration = accuracy`, `score = accuracy`,
`speed = averageTime`; zero denominators yield the rational 0, never an
undefined value. -/
theorem scoring_formulas (s : Session) (h : s.performance.score = none) :
    (∀ rf : RapidFireData, s.gameType = GameType.rapidFire →
      s.gameSpecificData.rapidFire = some rf →
      ((s.calculatePerformance).performance.accuracy =
          (if rf.totalPrompts > 0 then
            (jsRound (rf.completedResponses / rf.totalPrompts * 100) : ℚ)
          else 0) ∧
       (s.calculatePerformance).performance.score =
          some (s.calculatePerformance).performance.accuracy ∧
       (s.calculatePerformance).performance.speed = rf.responseTime ∧
       (rf.totalPrompts = 0 → (s.calculatePerformance).performance.accuracy = 0))) ∧
    (∀ ts : TripleStepData, s.gameType = GameType.tripleStep →
      s.gameSpecificData.tripleStep = some ts →
      ((s.calculatePerformance).performance.accuracy =
          (if ts.wordsAttempted > 0 then
            (jsRound (ts.successfulIntegrations / ts.wordsAttempted * 100) : ℚ)
          else 0) ∧
       (s.calculatePerformance).performance.wordIntegration =
          (s.calculatePerformance).performance.accuracy ∧
       (s.calculatePerformance).performance.score =
          some (s.calculatePerformance).performance.accuracy ∧
       (s.calculatePerformance).performance.speed = ts.averageTime ∧
       (ts.wordsAttempted = 0 → (s.calculatePerformance).performance.accuracy = 0))) := by
  constructor
  · intro rf hg hrf
    unfold Session.calculatePerformance
    simp only [h, Option.isSome_none, Bool.false_eq_true, if_false, hg, hrf, orZero]
    refine ⟨?_, ?_, ?_, ?_⟩ <;> try trivial
    all_goals intro hz; simp [hz]
  · intro ts hg hts
    unfold Session.calculatePerformance
    simp only [h, Option.isSome_none, Bool.false_eq_true, if_false, hg, hts, orZero]
    refine ⟨?_, ?_, ?_, ?_, ?_⟩ <;> try trivial
    all_goals intro hz; simp [hz]

/-- Witness for C2: the sample rapidFire session (10 prompts, 7 completed)
has no preset score and scores accuracy 70 with `score = accuracy`. -/
theorem scoring_formulas_witness :
    sampleRapidFireSession.performance.score = none ∧
    (sampleRapidFireSession.calculatePerformance).performance.accuracy = 70 ∧
    (sampleRapidFireSession.calculatePerformance).performance.score = some 70 := by
  have h := (scoring_formulas sampleRapidFireSession rfl).1
    { prompt := "pets", responseTime := 3, analogyQuality := 0
      totalPrompts := 10, completedResponses := 7 } rfl rfl
  have h70 : (sampleRapidFireSession.calculatePerformance).performance.accuracy = 70 := by
    rw [h.1]
    norm_num [jsRound]
  exact ⟨rfl, h70, by rw [h.2.1, h70]⟩

/-- C1: on an open session the first end-session call succeeds, flips
`isCompleted` from false to true in the stored record, and performs exactly
one user-stats update; the second call on the same session is rejected with
the AlreadyCompleted rejection and leaves the whole state (session record,
user stats, stats-update count) unchanged. -/
theorem end_session_idempotent (st : EndState) (gs : Session)
    (pl pl2 : PerformancePayload) (gd gd2 : Option GameDataPayload)
    (ai ai2 : Except String AIAnalysis) (now now2 : ℤ)
    (hs : st.session = some gs) (hopen : gs.isCompleted = false) :
    ((endSessionRoute st pl gd ai now).1 =
        RouteResult.success (routeFinalSession gs pl gd ai now) (aiOutcome ai)) ∧
    ((endSessionRoute st pl gd ai now).2.session =
        some (routeFinalSession gs pl gd ai now)) ∧
    ((routeFinalSession gs pl gd ai now).isCompleted = true) ∧
    ((endSessionRoute st pl gd ai now).2.statsUpdates = st.statsUpdates + 1) ∧
    (endSessionRoute (endSessionRoute st pl gd ai now).2 pl2 gd2 ai2 now2 =
        (RouteResult.alreadyCompleted, (endSessionRoute st pl gd ai now).2)) := by
  have h1 := endSessionRoute_open st gs pl gd ai now hs hopen
  have hcomp := routeFinalSession_isCompleted gs pl gd ai now
  refine ⟨by rw [h1], by rw [h1], hcomp, by rw [h1], ?_⟩
  exact endSessionRoute_completed _ (routeFinalSession gs pl gd ai now) pl2 gd2 ai2 now2
    (by rw [h1]) hcomp

/-- Witness for C1 at the concrete sample state: the first call counts one
stats update and the second call is rejected. -/
theorem end_session_idempotent_witness :
    sampleEndState.session = some sampleOpenSession ∧
    sampleOpenSession.isCompleted = false ∧
    ((endSessionRoute sampleEndState samplePayload none (Except.ok getDefaultAnalysis) 5000).2.statsUpdates = 1) ∧
    ((endSessionRoute (endSessionRoute sampleEndState samplePayload none (Except.ok getDefaultAnalysis) 5000).2
        samplePayload none (Except.ok getDefaultAnalysis) 6000).1 = RouteResult.alreadyCompleted) := by
  have h := end_session_idempotent sampleEndState sampleOpenSession
    samplePayload samplePayload none none
    (Except.ok getDefaultAnalysis) (Except.ok getDefaultAnalysis) 5000 6000 rfl rfl
  refine ⟨rfl, rfl, ?_, ?_⟩
  · rw [h.2.2.2.1]
    rfl
  · rw [h.2.2.2.2]

/-- C3: when any stage of the AI pipeline throws, the end-session call still
succeeds, with `getDefaultAnalysis` — whose numeric metrics are all 75 and
whose strengths, areasForImprovement and feedback are populated — attached to
the persisted session; the failure is never surfaced to the caller. -/
theorem ai_failure_defaults (st : EndState) (gs : Session)
    (pl : PerformancePayload) (gd : Option GameDataPayload) (e : String) (now : ℤ)
    (hs : st.session = some gs) (hopen : gs.isCompleted = false) :
    ((endSessionRoute st pl gd (Except.error e) now).1 =
        RouteResult.success (routeFinalSession gs pl gd (Except.error e) now)
          getDefaultAnalysis) ∧
    ((routeFinalSession gs pl gd (Except.error e) now).aiAnalysis =
        some getDefaultAnalysis) ∧
    ((routeFinalSession gs pl gd (Except.error e) now).isCompleted = true) ∧
    getDefaultAnalysis.speechClarity = 75 ∧
    getDefaultAnalysis.energyLevel = 75 ∧
    getDefaultAnalysis.coherence = 75 ∧
    getDefaultAnalysis.confidence = 75 ∧
    getDefaultAnalysis.fluency = 75 ∧
    getDefaultAnalysis.overallRating = 75 ∧
    getDefaultAnalysis.strengths ≠ [] ∧
    getDefaultAnalysis.areasForImprovement ≠ [] ∧
    getDefaultAnalysis.feedback ≠ [] := by
  have h1 := endSessionRoute_open st gs pl gd (Except.error e) now hs hopen
  refine ⟨by rw [h1]; rfl, routeFinalSession_aiAnalysis gs pl gd _ now,
    routeFinalSession_isCompleted gs pl gd _ now,
    rfl, rfl, rfl, rfl, rfl, rfl, by simp [getDefaultAnalysis],
    by simp [getDefaultAnalysis], by simp [getDefaultAnalysis]⟩

/-- Witness for C3 at the concrete sample state with a throwing provider. -/
theorem ai_failure_defaults_witness :
    sampleEndState.session = some sampleOpenSession ∧
    sampleOpenSession.isCompleted = false ∧
    ((endSessionRoute sampleEndState samplePayload none
        (Except.error "provider unreachable") 5000).1 =
      RouteResult.success
        (routeFinalSession sampleOpenSession samplePayload none
          (Except.error "provider unreachable") 5000)
        getDefaultAnalysis) := by
  have h := ai_failure_defaults sampleEndState sampleOpenSession samplePayload none
    "provider unreachable" 5000 rfl rfl
  exact ⟨rfl, rfl, h.1⟩

/-- C10: `calculatePerformance` returns its session unchanged whenever
`performance.score` is defined, and because the end-session route always
assigns `performance.score` (defaulting a missing value to 0) before
`endSession`, the persisted performance equals the client-submitted values
(`|| 0` defaults applied, the unsubmitted schema fields reset to 0): the
per-game-type scoring formulas are never applied on that path. -/
theorem performance_passthrough (st : EndState) (gs : Session)
    (pl : PerformancePayload) (gd : Option GameDataPayload)
    (ai : Except String AIAnalysis) (now : ℤ)
    (hs : st.session = some gs) (hopen : gs.isCompleted = false) :
    (∀ s : Session, s.performance.score.isSome = true →
        s.calculatePerformance = s) ∧
    ((endSessionRoute st pl gd ai now).2.session.map Session.performance =
      some
        { score := some (orZero pl.score)
          accuracy := orZero pl.accuracy
          speed := orZero pl.speed
          fluency := orZero pl.fluency
          confidence := orZero pl.confidence
          energyConsistency := 0
          wordIntegration := 0
          totalPrompts := 0
          completedPrompts := 0 }) := by
  refine ⟨fun s h => calculatePerformance_of_some s h, ?_⟩
  rw [endSessionRoute_open st gs pl gd ai now hs hopen]
  simp [routeFinalSession_performance, performanceFromPayload]

/-- Witness for C10 at the concrete sample state: the persisted performance
is exactly the submitted payload with `|| 0` defaults. -/
theorem performance_passthrough_witness :
    sampleEndState.session = some sampleOpenSession ∧
    sampleOpenSession.isCompleted = false ∧
    ((endSessionRoute sampleEndState samplePayload none
        (Except.ok getDefaultAnalysis) 5000).2.session.map Session.performance =
      some
        { score := some 80, accuracy := 90, speed := 2, fluency := 0
          confidence := 0, energyConsistency := 0, wordIntegration := 0
          totalPrompts := 0, completedPrompts := 0 }) := by
  have h := (performance_passthrough sampleEndState sampleOpenSession samplePayload
    none (Except.ok getDefaultAnalysis) 5000 rfl rfl).2
  refine ⟨rfl, rfl, ?_⟩
  rw [h]
  rfl

/-- Counterexample to C5 as stated: a client that submits `score = 150` at
end-session gets 150 persisted on the completed session — the route performs
no clamping — so the persisted score is not bounded by 100. -/
theorem persisted_score_counterexample :
    ((endSessionRoute sampleEndState overPayload none
        (Except.ok getDefaultAnalysis) 5000).2.session.map
          (fun s => s.performance.score) = some (some 150)) ∧
    ((endSessionRoute sampleEndState overPayload none
        (Except.ok getDefaultAnalysis) 5000).2.session.map
          Session.isCompleted = some true) ∧
    ¬((150 : ℚ) ≤ 100) := by
  rw [endSessionRoute_open sampleEndState sampleOpenSession overPayload none
    (Except.ok getDefaultAnalysis) 5000 rfl rfl]
  refine ⟨?_, ?_, by norm_num⟩
  · simp only [Option.map_some']
    rw [show (routeFinalSession sampleOpenSession overPayload none
        (Except.ok getDefaultAnalysis) 5000).performance.score =
      (performanceFromPayload overPayload).score from
        congrArg Performance.score (routeFinalSession_performance _ _ _ _ _)]
    rfl
  · simp only [Option.map_some']
    rw [routeFinalSession_isCompleted]

/-- C5 as amended: the route persists the client-submitted performance
unvalidated, so the bound holds exactly when the submitted values respect it:
if the submitted score and accuracy (after `|| 0` defaulting) are integers in
[0,100], every persisted percentage field of the completed session is an
integer in [0,100] (the unsubmitted percentage fields are 0). -/
theorem persisted_scores_bounded (st : EndState) (gs : Session)
    (pl : PerformancePayload) (gd : Option GameDataPayload)
    (ai : Except String AIAnalysis) (now : ℤ)
    (hs : st.session = some gs) (hopen : gs.isCompleted = false)
    (hs0 : 0 ≤ orZero pl.score) (hs100 : orZero pl.score ≤ 100)
    (hsint : (orZero pl.score).den = 1)
    (ha0 : 0 ≤ orZero pl.accuracy) (ha100 : orZero pl.accuracy ≤ 100)
    (haint : (orZero pl.accuracy).den = 1) :
    ∀ s1, (endSessionRoute st pl gd ai now).2.session = some s1 →
      s1.isCompleted = true ∧
      s1.performance.score = some (orZero pl.score) ∧
      (∀ v, s1.performance.score = some v → 0 ≤ v ∧ v ≤ 100 ∧ v.den = 1) ∧
      (0 ≤ s1.performance.accuracy ∧ s1.performance.accuracy ≤ 100 ∧
        s1.performance.accuracy.den = 1) ∧
      s1.performance.energyConsistency = 0 ∧
      s1.performance.wordIntegration = 0 := by
  intro s1 hmem
  rw [endSessionRoute_open st gs pl gd ai now hs hopen] at hmem
  simp only [Option.some_inj] at hmem
  subst hmem
  have hp := routeFinalSession_performance gs pl gd ai now
  refine ⟨routeFinalSession_isCompleted gs pl gd ai now, ?_, ?_, ?_, ?_, ?_⟩
  · rw [hp]; rfl
  · intro v hv
    rw [hp] at hv
    have : v = orZero pl.score := by
      have : (performanceFromPayload pl).score = some (orZero pl.score) := rfl
      rw [this, Option.some_inj] at hv
      exact hv.symm
    rw [this]
    exact ⟨hs0, hs100, hsint⟩
  · rw [hp]
    exact ⟨ha0, ha100, haint⟩
  · rw [hp]; rfl
  · rw [hp]; rfl

/-- Witness for C5's amended claim at the concrete in-range payload
(score 80, accuracy 90). -/
theorem persisted_scores_bounded_witness :
    ((0:ℚ) ≤ orZero samplePayload.score ∧ orZero samplePayload.score ≤ 100) ∧
    ((endSessionRoute sampleEndState samplePayload none
        (Except.ok getDefaultAnalysis) 5000).2.session.map
          (fun s => s.performance.score) = some (some 80)) := by
  have hroute := endSessionRoute_open sampleEndState sampleOpenSession samplePayload
    none (Except.ok getDefaultAnalysis) 5000 rfl rfl
  have h := (persisted_scores_bounded sampleEndState sampleOpenSession samplePayload none
    (Except.ok getDefaultAnalysis) 5000 rfl rfl
    (by norm_num [samplePayload, orZero]) (by norm_num [samplePayload, orZero])
    (by norm_num [samplePayload, orZero]) (by norm_num [samplePayload, orZero])
    (by norm_num [samplePayload, orZero]) (by norm_num [samplePayload, orZero])
    (routeFinalSession sampleOpenSession samplePayload none
      (Except.ok getDefaultAnalysis) 5000) (by rw [hroute])).2.1
  refine ⟨⟨by norm_num [samplePayload, orZero], by norm_num [samplePayload, orZero]⟩, ?_⟩
  rw [hroute]
  simp only [Option.map_some']
  rw [h]
  rfl

/-- C8: the overview improvement is 0 whenever fewer than 4 sessions are in
range; with at least 4 sessions it is
`round(((secondHalfAvg - firstHalfAvg) / firstHalfAvg) * 100)` where the
sorted sessions split at `floor(n/2)`. -/
theorem overview_improvement_spec (l : List Session) :
    (l.length < 4 → overviewImprovement l = 0) ∧
    (4 ≤ l.length →
      overviewImprovement l =
        jsRound ((listAvg ((l.drop (l.length / 2)).map sessionScore) -
                  listAvg ((l.take (l.length / 2)).map sessionScore)) /
                 listAvg ((l.take (l.length / 2)).map sessionScore) * 100)) := by
  constructor
  · intro h
    unfold overviewImprovement
    rw [if_neg (by omega)]
  · intro h
    unfold overviewImprovement
    rw [if_pos (by omega)]

/-- Witness for C8: four sessions scored 50, 60, 70, 80 give improvement
`round(((75 - 55) / 55) * 100) = 36`. -/
theorem overview_improvement_witness :
    4 ≤ [scoredSession 50, scoredSession 60, scoredSession 70,
          scoredSession 80].length ∧
    overviewImprovement [scoredSession 50, scoredSession 60, scoredSession 70,
          scoredSession 80] = 36 := by
  refine ⟨by simp, ?_⟩
  rw [(overview_improvement_spec _).2 (by simp)]
  norm_num [listAvg, sessionScore, scoredSession, orZero, jsRound]

/-- C9: every percentageChange metric of the compare route (sessions,
averageScore, totalTime) equals
`round(((period1Value - period2Value) / period2Value) * 100)` when the
period-2 value is positive, and is exactly 0 when the period-2 value is 0 —
in particular all three are 0 when period 2 contains no sessions. -/
theorem compare_change_clamped (l1 l2 : List Session) :
    ((0 < ((calculatePeriodMetrics l2).sessions : ℚ) →
        (compareChanges l1 l2).sessions.percentageChange =
          (jsRound ((((calculatePeriodMetrics l1).sessions : ℚ) -
              ((calculatePeriodMetrics l2).sessions : ℚ)) /
              ((calculatePeriodMetrics l2).sessions : ℚ) * 100) : ℚ)) ∧
      (((calculatePeriodMetrics l2).sessions : ℚ) = 0 →
        (compareChanges l1 l2).sessions.percentageChange = 0)) ∧
    ((0 < (calculatePeriodMetrics l2).averageScore →
        (compareChanges l1 l2).averageScore.percentageChange =
          (jsRound (((calculatePeriodMetrics l1).averageScore -
              (calculatePeriodMetrics l2).averageScore) /
              (calculatePeriodMetrics l2).averageScore * 100) : ℚ)) ∧
      ((calculatePeriodMetrics l2).averageScore = 0 →
        (compareChanges l1 l2).averageScore.percentageChange = 0)) ∧
    ((0 < (calculatePeriodMetrics l2).totalTime →
        (compareChanges l1 l2).totalTime.percentageChange =
          (jsRound (((calculatePeriodMetrics l1).totalTime -
              (calculatePeriodMetrics l2).totalTime) /
              (calculatePeriodMetrics l2).totalTime * 100) : ℚ)) ∧
      ((calculatePeriodMetrics l2).totalTime = 0 →
        (compareChanges l1 l2).totalTime.percentageChange = 0)) ∧
    (l2 = [] →
      (compareChanges l1 l2).sessions.percentageChange = 0 ∧
      (compareChanges l1 l2).averageScore.percentageChange = 0 ∧
      (compareChanges l1 l2).totalTime.percentageChange = 0) := by
  refine ⟨⟨?_, ?_⟩, ⟨?_, ?_⟩, ⟨?_, ?_⟩, ?_⟩
  · intro h
    unfold compareChanges metricChange
    simp only [gt_iff_lt]
    rw [if_pos h]
  · intro h
    unfold compareChanges metricChange
    simp only [gt_iff_lt]
    rw [if_neg (by rw [h]; exact lt_irrefl (0:ℚ))]
  · intro h
    unfold compareChanges metricChange
    simp only [gt_iff_lt]
    rw [if_pos h]
  · intro h
    unfold compareChanges metricChange
    simp only [gt_iff_lt]
    rw [if_neg (by rw [h]; exact lt_irrefl (0:ℚ))]
  · intro h
    unfold compareChanges metricChange
    simp only [gt_iff_lt]
    rw [if_pos h]
  · intro h
    unfold compareChanges metricChange
    simp only [gt_iff_lt]
    rw [if_neg (by rw [h]; exact lt_irrefl (0:ℚ))]
  · intro h
    subst h
    unfold compareChanges metricChange calculatePeriodMetrics
    norm_num [listAvg, listMax, sessionTime]

/-- Witness for C9: one session in period 1 and none in period 2 yield
percentageChange 0 for all three metrics. -/
theorem compare_change_clamped_witness :
    (compareChanges [scoredSession 80] []).sessions.percentageChange = 0 ∧
    (compareChanges [scoredSession 80] []).averageScore.percentageChange = 0 ∧
    (compareChanges [scoredSession 80] []).totalTime.percentageChange = 0 :=
  (compare_change_clamped [scoredSession 80] []).2.2.2 rfl

end Speakace
